import Mathlib

/-!
Verification of `stl10_tools.py` (STL-10 data loading utilities).

The Python module is embedded shallowly:

* byte streams (`f.read()` fed to `np.fromstring(..., np.uint8)`) are
  `List Nat`, each entry a byte value;
* numpy arrays are nested lists; `reshape` and `transpose` are modelled by
  their documented row-major index semantics;
* unsigned 8/16-bit arithmetic is `Nat` arithmetic taken `% 256` / `% 65536`;
* Python strings are Lean `String`s, but every string operation used by the
  source (`str.split(' ')`, whitespace stripping, decimal parsing as done by
  `int()` / `astype`) is defined here directly on the character list so that
  everything evaluates;
* runtime exceptions (`assert`, numpy `IndexError` / `ValueError`, the
  `AttributeError` from `f.iteritems()` on line 100) are an explicit error
  type; the random generator of `np.random.RandomState` is a parameter (the
  chosen index list), constrained in theorems by the documented contract of
  `np.random.choice(n, k, replace=False)`.
-/

namespace Stl10

/-! ## Python string primitives -/

/-- Python `s.split(sep)` for a single-character separator `sep`: the string is
cut at every occurrence of `sep`, keeping empty pieces (`"a  b".split(' ') ==
['a', '', 'b']`, `"".split(' ') == ['']`). -/
def splitChar (sep : Char) : List Char → List (List Char)
  | [] => [[]]
  | c :: rest =>
    let r := splitChar sep rest
    if c = sep then [] :: r else (c :: r.headD []) :: r.tail

/-- Python `s.split(' ')` on Lean strings. -/
def pySplitSpace (s : String) : List String :=
  (splitChar ' ' s.data).map (fun cs => ⟨cs⟩)

/-- Strip leading and trailing whitespace, as `int()` and numpy's string-to-int
conversion do before parsing a decimal literal. -/
def stripChars (s : List Char) : List Char :=
  ((s.dropWhile Char.isWhitespace).reverse.dropWhile Char.isWhitespace).reverse

/-- Value of a decimal digit character. -/
def digitVal? (c : Char) : Option Nat :=
  if '0' ≤ c ∧ c ≤ '9' then some (c.toNat - 48) else none

/-- Accumulating decimal parse of a digit list; fails on any non-digit. -/
def parseDigits : List Char → Nat → Option Nat
  | [], acc => some acc
  | c :: rest, acc =>
    match digitVal? c with
    | some d => parseDigits rest (acc * 10 + d)
    | none => none

/-- Python `int(s)` restricted to the non-negative decimal literals that occur
in the fold-index file: surrounding whitespace is stripped, the remainder must
be a non-empty digit string. -/
def pyInt? (s : String) : Option Nat :=
  match stripChars s.data with
  | [] => none
  | c :: rest => parseDigits (c :: rest) 0

/-! ## Module constants (`stl10_tools.py`, lines 29-31) -/

def DATADIR : String := "/work/haeusser/data/stl10_binary/"

def NUM_LABELS : Nat := 10

def IMAGE_SHAPE : List Nat := [96, 96, 3]

/-! ## `extract_images` (lines 61-68) -/

/-- Row-major semantics of `arr.reshape(-1, d1, d2, d3)` on a flat `uint8`
buffer: element `[i, j, k, l]` is `flat[((i*d1 + j)*d2 + k)*d3 + l]`.  numpy
requires the length to be a multiple of `d1*d2*d3` (else `ValueError`); the
claims about `extract_images` only concern such lengths. -/
def reshapeNeg1 (flat : List Nat) (d1 d2 d3 : Nat) : List (List (List (List Nat))) :=
  (List.range (flat.length / (d1 * d2 * d3))).map fun i =>
    (List.range d1).map fun j =>
      (List.range d2).map fun k =>
        (List.range d3).map fun l =>
          flat.getD (((i * d1 + j) * d2 + k) * d3 + l) 0

/-- `np.transpose(a, [0, 3, 2, 1])` on an array of shape `[n, d1, d2, d3]`:
the result has shape `[n, d3, d2, d1]` and `out[i][y][x][c] = a[i][c][x][y]`. -/
def transpose0321 (a : List (List (List (List Nat)))) (d1 d2 d3 : Nat) :
    List (List (List (List Nat))) :=
  a.map fun img =>
    (List.range d3).map fun y =>
      (List.range d2).map fun x =>
        (List.range d1).map fun c =>
          ((img.getD c []).getD x []).getD y 0

/-- `extract_images` (lines 61-68): read the file bytes, reinterpret them as
`[-1, *shape[::-1]]` with `shape = IMAGE_SHAPE = [96, 96, 3]`, then transpose
axes `[0, 3, 2, 1]`.  The file-content argument stands for `f.read()`. -/
def extract_images (data : List Nat) : List (List (List (List Nat))) :=
  match IMAGE_SHAPE.reverse with
  | [d1, d2, d3] => transpose0321 (reshapeNeg1 data d1 d2 d3) d1 d2 d3
  | _ => []

/-! ## `extract_labels` (lines 71-77) -/

/-- `extract_labels` (lines 71-77): read the label bytes and subtract 1 from
each in `uint8` arithmetic (`lbls -= 1`); subtracting 1 modulo 256 is adding
255 modulo 256. -/
def extract_labels (data : List Nat) : List Nat :=
  data.map (fun b => (b + 255) % 256)

/-! ## `pick_fold` (lines 80-108) -/

/-- Runtime errors of the embedded code: the `assert` on line 93, numpy
`ValueError` (string-to-int conversion or ragged array), numpy `IndexError`
(out-of-range indexing), and the `AttributeError` raised on line 100 by
`f.iteritems()` (gfile handles, like all Python file objects, have no
`iteritems` method). -/
inductive PyError where
  | assertionError
  | valueError
  | indexError
  | attributeError
deriving DecidableEq

/-- Line 101, `line.split(' ')[:-1]` followed by the per-element effect of
`.astype(np.uint16)` from line 102: split the line on single spaces, drop the
final piece, convert each remaining piece to an unsigned 16-bit integer
(decimal parse with surrounding whitespace allowed, value taken mod 2^16).
`none` models the `ValueError` raised on a non-numeric piece.  NOTE: lines
101-105 are unreachable in the source — the iteration on line 100 raises
`AttributeError` first (see `pick_fold`) — so this definition only documents
the dead parsing code; no theorem rests on it. -/
def parseFoldLine (line : String) : Option (List Nat) :=
  ((pySplitSpace line).dropLast).mapM (fun t => (pyInt? t).map (· % 65536))

/-- Lines 101-102 as they were evidently intended (parse every line of
`fold_indices.txt` and form the 2-dimensional `uint16` array; `np.array` only
yields a 2-dimensional numeric table when the rows have equal length, a ragged
list makes the subsequent `astype(np.uint16)` raise `ValueError`, modelled as
`none`).  Like `parseFoldLine` this documents code that is unreachable behind
the line-100 `AttributeError`; no theorem rests on it. -/
def parseFoldFile (lines : List String) : Option (List (List Nat)) :=
  match lines.mapM parseFoldLine with
  | none => none
  | some rows =>
    if rows.all (fun r => r.length = (rows.headD []).length) then some rows else none

/-- numpy integer-array indexing `arr[idxs]` on the leading axis: a fresh array
holding `arr[i]` for each `i` in `idxs`; an out-of-range index raises
`IndexError`, modelled as `none`. -/
def fancyIndex (l : List α) (idxs : List Nat) : Option (List α) :=
  idxs.mapM (fun i => l[i]?)

/-- `pick_fold` (lines 80-108).  `foldLines` is the content of
`fold_indices.txt` (the handle is opened on lines 97-99); it is never actually
read.  Line 93 is the `assert`; for `fold > -1` the loop header on line 100,
`for line in f.iteritems()`, raises `AttributeError` — no TensorFlow gfile
object (nor any Python file object) has an `iteritems` method — before any
line is read, so the parsing and selection on lines 101-105 (`parseFoldLine`,
`parseFoldFile`, `fancyIndex`) are unreachable; for `fold = -1` the arguments
are returned untouched. -/
def pick_fold (images : List α) (labels : List β) (fold : ℤ) (foldLines : List String) :
    Except PyError (List α × List β) :=
  if fold < -1 ∨ 9 < fold then
    Except.error PyError.assertionError
  else if -1 < fold then
    Except.error PyError.attributeError
  else
    Except.ok (images, labels)

/-! ## `get_data` (lines 34-58) -/

/-- The unlabeled-split images, `extract_images(DATADIR + 'unlabeled_X.bin',
IMAGE_SHAPE)` (line 52), with the file system as a function from path to
content. -/
def unlabeled_images (fs : String → List Nat) : List (List (List (List Nat))) :=
  extract_images (fs (DATADIR ++ "unlabeled_X.bin"))

/-- `get_data` (lines 34-58).  `fs` maps a path to the bytes of that file;
`choice` stands for the indices produced by
`np.random.RandomState().choice(len(res), max_num, False)` on line 56.  The
result pairs the returned value (`none` models Python's implicit `None` when
`name` matches no branch, and a numpy `IndexError` from an out-of-range sample
index) with the list of files the call opens. -/
def get_data (name : String) (max_num : Nat) (fs : String → List Nat) (choice : List Nat) :
    Option (List (List (List (List Nat))) × Option (List Nat)) × List String :=
  if name = "train" then
    (some (extract_images (fs (DATADIR ++ "train_X.bin")),
           some (extract_labels (fs (DATADIR ++ "train_y.bin")))),
     [DATADIR ++ "train_X.bin", DATADIR ++ "train_y.bin"])
  else if name = "test" then
    (some (extract_images (fs (DATADIR ++ "test_X.bin")),
           some (extract_labels (fs (DATADIR ++ "test_y.bin")))),
     [DATADIR ++ "test_X.bin", DATADIR ++ "test_y.bin"])
  else if name = "unlabeled" then
    (if max_num < (unlabeled_images fs).length then
       (fancyIndex (unlabeled_images fs) choice).map (fun r => (r, none))
     else some (unlabeled_images fs, none),
     [DATADIR ++ "unlabeled_X.bin"])
  else
    (none, [])

/-! ## `augmentation_params` (lines 164-172) -/

/-- The module-level `augmentation_params` dict, as the association list built
by lines 165-172, with the float literals as exact rationals. -/
def augmentation_params : List (String × ℚ) :=
  [("max_crop_percentage", 0.2),
   ("brightness_max_delta", 1.3),
   ("saturation_lower", 0.5),
   ("saturation_upper", 1.2),
   ("hue_max_delta", 0.1),
   ("gray_prob", 0.5),
   ("max_rotate_angle", 10)]

end Stl10

namespace Stl10

/-! ## General list lemmas -/

theorem getD_range_map {α : Type} (f : Nat → α) (n i : Nat) (d : α) (h : i < n) :
    ((List.range n).map f).getD i d = f i := by
  simp [List.getD_eq_getElem?_getD, List.getElem?_map, List.getElem?_range h]

theorem eq_range_map_getD {α : Type} (l : List α) (d : α) :
    l = (List.range l.length).map (fun i => l.getD i d) := by
  apply List.ext_getElem
  · simp
  · intro i h1 h2
    simp only [List.getElem_map, List.getElem_range]
    simp [List.getD_eq_getElem?_getD, List.getElem?_eq_getElem h1]

theorem flatMap_congr {α β : Type} {l : List α} {f g : α → List β}
    (h : ∀ a ∈ l, f a = g a) : l.flatMap f = l.flatMap g := by
  simp only [List.flatMap]
  rw [List.map_congr_left h]

theorem flatMap_range_mul {α : Type} (a b : Nat) (f : Nat → α) :
    (List.range a).flatMap (fun u => (List.range b).map (fun v => f (u * b + v)))
      = (List.range (a * b)).map f := by
  induction a with
  | zero => simp
  | succ a ih =>
    rw [List.range_succ, show (a + 1) * b = a * b + b from by ring, List.range_add (a * b) b]
    simp only [List.flatMap_append, List.map_append, ih, List.flatMap_cons,
      List.flatMap_nil, List.append_nil, List.map_map]
    rfl

/-! ## C1: shape and element layout of `extract_images` -/

theorem extract_images_eq (data : List Nat) :
    extract_images data = transpose0321 (reshapeNeg1 data 3 96 96) 3 96 96 := rfl

theorem extract_images_length (data : List Nat) :
    (extract_images data).length = data.length / 27648 := by
  rw [extract_images_eq]
  simp [transpose0321, reshapeNeg1]

theorem extract_images_getD (data : List Nat) (i y x c : Nat)
    (hi : i < data.length / 27648) (hy : y < 96) (hx : x < 96) (hc : c < 3) :
    ((((extract_images data).getD i []).getD y []).getD x []).getD c 0
      = data.getD (i * 27648 + c * 9216 + x * 96 + y) 0 := by
  rw [extract_images_eq]
  unfold transpose0321 reshapeNeg1
  rw [List.map_map]
  have h27 : (3 * (96 * 96)) = 27648 := by norm_num
  rw [getD_range_map _ _ i _ (by simpa [h27] using hi)]
  simp only [Function.comp]
  rw [getD_range_map _ _ y _ hy, getD_range_map _ _ x _ hx, getD_range_map _ _ c _ hc]
  rw [getD_range_map _ _ c _ hc, getD_range_map _ _ x _ hx, getD_range_map _ _ y _ hy]
  congr 1
  ring

theorem extract_images_shape (data : List Nat) :
    ∀ img ∈ extract_images data, img.length = 96 ∧
      ∀ row ∈ img, row.length = 96 ∧ ∀ px ∈ row, px.length = 3 := by
  intro img himg
  rw [extract_images_eq] at himg
  unfold transpose0321 at himg
  rw [List.mem_map] at himg
  obtain ⟨w, _, rfl⟩ := himg
  refine ⟨by simp, ?_⟩
  intro row hrow
  rw [List.mem_map] at hrow
  obtain ⟨y, _, rfl⟩ := hrow
  refine ⟨by simp, ?_⟩
  intro px hpx
  rw [List.mem_map] at hpx
  obtain ⟨x, _, rfl⟩ := hpx
  simp

/-- C1: for a byte stream whose length is a positive multiple of
27648 = 3*96*96, `extract_images` returns an array of `count = length/27648`
images, each shaped 96 x 96 x 3, with element `[i, y, x, c]` equal to the input
byte at offset `i*27648 + c*9216 + x*96 + y` (the reinterpretation as
`[count, 3, 96, 96]` followed by the `[0, 3, 2, 1]` transpose). -/
theorem extract_images_spec (data : List Nat) (n : Nat) (hn : 0 < n)
    (hlen : data.length = n * 27648) :
    (extract_images data).length = n ∧
    (∀ img ∈ extract_images data, img.length = 96 ∧
      ∀ row ∈ img, row.length = 96 ∧ ∀ px ∈ row, px.length = 3) ∧
    (∀ i y x c, i < n → y < 96 → x < 96 → c < 3 →
      ((((extract_images data).getD i []).getD y []).getD x []).getD c 0
        = data.getD (i * 27648 + c * 9216 + x * 96 + y) 0) := by
  have hdiv : data.length / 27648 = n := by
    rw [hlen]
    exact Nat.mul_div_cancel n (by norm_num)
  refine ⟨by rw [extract_images_length, hdiv], extract_images_shape data, ?_⟩
  intro i y x c hi hy hx hc
  exact extract_images_getD data i y x c (by rw [hdiv]; exact hi) hy hx hc

theorem extract_images_spec_witness :
    (extract_images (List.replicate 27648 0)).length = 1 :=
  (extract_images_spec (List.replicate 27648 0) 1 (by norm_num)
    (by rw [List.length_replicate, Nat.one_mul])).1

end Stl10

namespace Stl10

/-! ## C6: `extract_images` loses no data -/

/-- The inverse reading of an extracted image batch: undo the `[0, 3, 2, 1]`
transpose and flatten back to the native `[count, 3, 96, 96]` storage order,
i.e. emit `out[i][y][x][c]` at flat position `i*27648 + c*9216 + x*96 + y`. -/
def images_to_bytes (a : List (List (List (List Nat)))) : List Nat :=
  a.flatMap fun img =>
    (List.range 3).flatMap fun c =>
      (List.range 96).flatMap fun x =>
        (List.range 96).map fun y =>
          ((img.getD y []).getD x []).getD c 0

theorem flatMap_map_comp {α β γ : Type} (l : List α) (f : α → β) (g : β → List γ) :
    (l.map f).flatMap g = l.flatMap (fun a => g (f a)) := by
  simp [List.flatMap, List.map_map]
  rfl

/-- C6: the byte stream is recoverable exactly from the array returned by
`extract_images`, by inverting the transpose and reshape; the round trip
bytes -> array -> bytes is the identity on streams whose length is a positive
multiple of 27648. -/
theorem extract_images_roundtrip (data : List Nat) (n : Nat) (hn : 0 < n)
    (hlen : data.length = n * 27648) :
    images_to_bytes (extract_images data) = data := by
  have hdiv : data.length / 27648 = n := by
    rw [hlen]
    exact Nat.mul_div_cancel n (by norm_num)
  have hElen : (extract_images data).length = n := by rw [extract_images_length, hdiv]
  have hE : extract_images data
      = (List.range n).map (fun i => (extract_images data).getD i []) := by
    conv_lhs => rw [eq_range_map_getD (extract_images data) []]
    rw [hElen]
  unfold images_to_bytes
  rw [hE, flatMap_map_comp]
  have hkey : ∀ i ∈ List.range n,
      ((List.range 3).flatMap fun c =>
        (List.range 96).flatMap fun x =>
          (List.range 96).map fun y =>
            ((((extract_images data).getD i []).getD y []).getD x []).getD c 0)
      = (List.range 27648).map (fun t => data.getD (i * 27648 + t) 0) := by
    intro i hi
    rw [List.mem_range] at hi
    have h1 : ∀ c ∈ List.range 3,
        ((List.range 96).flatMap fun x =>
          (List.range 96).map fun y =>
            ((((extract_images data).getD i []).getD y []).getD x []).getD c 0)
        = (List.range 9216).map (fun v => data.getD (i * 27648 + (c * 9216 + v)) 0) := by
      intro c hc
      rw [List.mem_range] at hc
      have h2 : ∀ x ∈ List.range 96,
          ((List.range 96).map fun y =>
            ((((extract_images data).getD i []).getD y []).getD x []).getD c 0)
          = (List.range 96).map
              (fun y => data.getD (i * 27648 + (c * 9216 + (x * 96 + y))) 0) := by
        intro x hx
        rw [List.mem_range] at hx
        apply List.map_congr_left
        intro y hy
        rw [List.mem_range] at hy
        rw [extract_images_getD data i y x c (by rw [hdiv]; exact hi) hy hx hc]
        have harith : i * 27648 + c * 9216 + x * 96 + y
            = i * 27648 + (c * 9216 + (x * 96 + y)) := by ring
        rw [harith]
      rw [flatMap_congr h2]
      exact flatMap_range_mul 96 96 (fun v => data.getD (i * 27648 + (c * 9216 + v)) 0)
    rw [flatMap_congr h1]
    exact flatMap_range_mul 3 9216 (fun v => data.getD (i * 27648 + v) 0)
  rw [flatMap_congr hkey, flatMap_range_mul n 27648 (fun t => data.getD t 0)]
  conv_rhs => rw [eq_range_map_getD data 0]
  rw [hlen]

theorem extract_images_roundtrip_witness :
    images_to_bytes (extract_images (List.replicate 27648 7)) = List.replicate 27648 7 :=
  extract_images_roundtrip (List.replicate 27648 7) 1 (by norm_num)
    (by rw [List.length_replicate, Nat.one_mul])

/-! ## C2: `extract_labels` -/

/-- C2: `extract_labels` keeps one entry per input byte and maps each byte `b`
to `b - 1` in unsigned 8-bit arithmetic, i.e. `(b + 255) % 256`; in particular
bytes in `[1, 10]` (the STL-10 1-indexed labels) come out as `b - 1`. -/
theorem extract_labels_spec (data : List Nat) :
    (extract_labels data).length = data.length ∧
    ∀ i, i < data.length →
      (extract_labels data).getD i 0 = (data.getD i 0 + 255) % 256 ∧
      (1 ≤ data.getD i 0 → data.getD i 0 ≤ 10 →
        (extract_labels data).getD i 0 = data.getD i 0 - 1) := by
  refine ⟨by simp [extract_labels], ?_⟩
  intro i hi
  have hmap : (extract_labels data).getD i 0 = (data.getD i 0 + 255) % 256 := by
    unfold extract_labels
    rw [List.getD_eq_getElem?_getD, List.getElem?_map, List.getElem?_eq_getElem hi]
    rw [List.getD_eq_getElem?_getD, List.getElem?_eq_getElem hi]
    rfl
  refine ⟨hmap, fun h1 h10 => ?_⟩
  rw [hmap]
  omega

theorem extract_labels_spec_witness :
    (extract_labels [1, 10, 0]).getD 1 0 = [1, 10, 0].getD 1 0 - 1 :=
  ((extract_labels_spec [1, 10, 0]).2 1 (by norm_num)).2 (by decide) (by decide)

end Stl10

namespace Stl10

/-! ## `fancyIndex` lemmas -/

theorem fancyIndex_eq_map {α : Type} (l : List α) (idxs : List Nat) (d : α)
    (h : ∀ i ∈ idxs, i < l.length) :
    fancyIndex l idxs = some (idxs.map (fun i => l.getD i d)) := by
  induction idxs with
  | nil => rfl
  | cons a t ih =>
    have ha : a < l.length := h a (List.mem_cons_self a t)
    have ht : ∀ i ∈ t, i < l.length := fun i hi => h i (List.mem_cons_of_mem a hi)
    have h1 : l[a]? = some (l.getD a d) := by
      rw [List.getElem?_eq_getElem ha,
        List.getD_eq_getElem?_getD, List.getElem?_eq_getElem ha]
      rfl
    simp only [fancyIndex, List.mapM_cons] at ih ⊢
    rw [h1, ih ht]
    rfl

end Stl10

namespace Stl10

/-! ## C3: the fold-range assertion -/

/-- C3: `pick_fold` raises its assertion error exactly when `fold` lies outside
`[-1, 9]`; for `fold` in `[-1, 9]` the assertion passes and execution proceeds
to the selection (`fold > -1`) or pass-through branch, whose outcomes (the
line-100 `AttributeError`, or the returned pair) are never the assertion
error. -/
theorem pick_fold_assertion_iff {α β : Type} (images : List α) (labels : List β)
    (fold : ℤ) (lines : List String) :
    pick_fold images labels fold lines = Except.error PyError.assertionError
      ↔ (fold < -1 ∨ 9 < fold) := by
  constructor
  · intro h
    by_contra hc
    unfold pick_fold at h
    rw [if_neg hc] at h
    by_cases h2 : (-1 : ℤ) < fold
    · rw [if_pos h2] at h
      exact absurd h (by simp)
    · rw [if_neg h2] at h
      exact absurd h (by simp)
  · intro h
    unfold pick_fold
    rw [if_pos h]

/-! ## C4: the fold-selection path never runs -/

/-- C4 (code bug): for every `fold` in `[0, 9]` the assertion passes and
`pick_fold` then raises `AttributeError` at `f.iteritems()` on line 100 —
gfile handles have no `iteritems` method — before reading a single line of the
fold file.  The table-building and row selection the claim (and the
`pick_fold` docstring) describe, lines 101-105, are unreachable, and no
images/labels are ever returned for these folds. -/
theorem pick_fold_attribute_error {α β : Type} (images : List α) (labels : List β)
    (fold : ℤ) (lines : List String) (h0 : 0 ≤ fold) (h9 : fold ≤ 9) :
    pick_fold images labels fold lines = Except.error PyError.attributeError := by
  unfold pick_fold
  rw [if_neg (by omega), if_pos (by omega)]

theorem pick_fold_attribute_error_witness :
    pick_fold ["a", "b", "c"] [5, 6, 7] 0 ["1 2 \n"]
      = Except.error PyError.attributeError :=
  pick_fold_attribute_error ["a", "b", "c"] [5, 6, 7] 0 ["1 2 \n"]
    (by decide) (by decide)

/-! ## C10: no aligned pair is ever produced for a fold in [0, 9] -/

/-- C10 (code bug): evaluated at fold 3 on images and labels of equal length
(and a well-formed fold-file line), `pick_fold` stops with the line-100
`AttributeError`: it returns an error, not an (images, labels) pair, so the
aligned selection of lines 104-105 that the claim describes can never be
observed. -/
theorem pick_fold_fold3_no_pair :
    pick_fold ["a", "b", "c"] [5, 6, 7] 3 ["0 1 \n"]
      = Except.error PyError.attributeError := by rfl

/-! ## C5: `pick_fold` does not disturb its inputs -/

/-- C5: in this pure embedding `pick_fold` cannot mutate its arguments; the
fold `-1` call returns the pair `(images, labels)` exactly as passed in, and in
every call that returns a pair at all (only the `fold = -1` branch does) the
outputs are entries of the inputs. -/
theorem pick_fold_preserves_inputs {α β : Type} (images : List α) (labels : List β)
    (lines : List String) :
    pick_fold images labels (-1) lines = Except.ok (images, labels) ∧
    ∀ (fold : ℤ) (imgs : List α) (lbls : List β),
      pick_fold images labels fold lines = Except.ok (imgs, lbls) →
        (∀ a ∈ imgs, a ∈ images) ∧ (∀ b ∈ lbls, b ∈ labels) := by
  constructor
  · unfold pick_fold
    rw [if_neg (by decide), if_neg (by decide)]
  · intro fold imgs lbls h
    unfold pick_fold at h
    by_cases hc : fold < -1 ∨ 9 < fold
    · rw [if_pos hc] at h
      simp at h
    · rw [if_neg hc] at h
      by_cases h2 : (-1 : ℤ) < fold
      · rw [if_pos h2] at h
        simp at h
      · rw [if_neg h2] at h
        simp only [Except.ok.injEq, Prod.mk.injEq] at h
        obtain ⟨hi, hl⟩ := h
        subst hi
        subst hl
        exact ⟨fun a ha => ha, fun b hb => hb⟩

theorem pick_fold_preserves_inputs_witness :
    pick_fold ["a", "b"] [1, 2] (-1) [] = Except.ok (["a", "b"], [1, 2]) ∧
    "a" ∈ (["a", "b"] : List String) := by
  have h := pick_fold_preserves_inputs ["a", "b"] [1, 2] ([] : List String)
  exact ⟨h.1, (h.2 (-1) ["a", "b"] [1, 2] h.1).1 "a" (by decide)⟩

end Stl10

namespace Stl10

/-! ## C7: the augmentation parameter set -/

/-- C7: `augmentation_params` binds exactly the seven keys
`max_crop_percentage`, `brightness_max_delta`, `saturation_lower`,
`saturation_upper`, `hue_max_delta`, `gray_prob`, `max_rotate_angle` to the
fixed values 0.2, 1.3, 0.5, 1.2, 0.1, 0.5 and 10, and each knob lies in its
valid range: the grayscale probability in [0, 1], the hue delta in [0, 0.5],
the saturation interval non-empty with positive lower bound, and every value
non-negative. -/
theorem augmentation_params_spec :
    augmentation_params.map Prod.fst =
      ["max_crop_percentage", "brightness_max_delta", "saturation_lower",
       "saturation_upper", "hue_max_delta", "gray_prob", "max_rotate_angle"] ∧
    augmentation_params.lookup "max_crop_percentage" = some 0.2 ∧
    augmentation_params.lookup "brightness_max_delta" = some 1.3 ∧
    augmentation_params.lookup "saturation_lower" = some 0.5 ∧
    augmentation_params.lookup "saturation_upper" = some 1.2 ∧
    augmentation_params.lookup "hue_max_delta" = some 0.1 ∧
    augmentation_params.lookup "gray_prob" = some 0.5 ∧
    augmentation_params.lookup "max_rotate_angle" = some 10 ∧
    (0 ≤ (augmentation_params.lookup "gray_prob").getD 0 ∧
      (augmentation_params.lookup "gray_prob").getD 0 ≤ 1) ∧
    (0 ≤ (augmentation_params.lookup "hue_max_delta").getD 0 ∧
      (augmentation_params.lookup "hue_max_delta").getD 0 ≤ 1 / 2) ∧
    (0 < (augmentation_params.lookup "saturation_lower").getD 0 ∧
      (augmentation_params.lookup "saturation_lower").getD 0
        ≤ (augmentation_params.lookup "saturation_upper").getD 0) ∧
    (∀ p ∈ augmentation_params, 0 ≤ p.2) := by
  have hgray : augmentation_params.lookup "gray_prob" = some 0.5 := rfl
  have hhue : augmentation_params.lookup "hue_max_delta" = some 0.1 := rfl
  have hslo : augmentation_params.lookup "saturation_lower" = some 0.5 := rfl
  have hsup : augmentation_params.lookup "saturation_upper" = some 1.2 := rfl
  refine ⟨rfl, rfl, rfl, rfl, rfl, rfl, rfl, rfl, ?_, ?_, ?_, ?_⟩
  · rw [hgray]
    constructor <;> norm_num
  · rw [hhue]
    constructor <;> norm_num
  · rw [hslo, hsup]
    constructor <;> norm_num
  · intro p hp
    simp only [augmentation_params, List.mem_cons, List.not_mem_nil, or_false] at hp
    rcases hp with h | h | h | h | h | h | h <;> subst h <;> norm_num

/-! ## C8: the unlabeled split of `get_data` -/

/-- C8: `get_data('unlabeled', max_num)` returns `None` labels and
`min(n, max_num)` images, where `n` is the number of unlabeled images: when
`n > max_num` it keeps exactly the rows at the sampled indices, and when
`n <= max_num` it returns the full array unchanged.  Only the unlabeled images
file is opened.  The `hchoice` hypothesis is numpy's documented contract for
`np.random.choice(n, max_num, False)` — `max_num` distinct in-range indices —
and is required only when that call actually happens, i.e. when
`n > max_num`; the `n <= max_num` branch is therefore unconditional. -/
theorem get_data_unlabeled_spec (fs : String → List Nat) (max_num : Nat) (choice : List Nat)
    (hchoice : max_num < (unlabeled_images fs).length →
      choice.length = max_num ∧ choice.Nodup ∧
        ∀ i ∈ choice, i < (unlabeled_images fs).length) :
    ∃ imgs, get_data "unlabeled" max_num fs choice
        = (some (imgs, none), [DATADIR ++ "unlabeled_X.bin"]) ∧
      imgs.length = min (unlabeled_images fs).length max_num ∧
      ((unlabeled_images fs).length ≤ max_num → imgs = unlabeled_images fs) ∧
      (max_num < (unlabeled_images fs).length →
        imgs = choice.map (fun i => (unlabeled_images fs).getD i []) ∧
        choice.Nodup ∧ imgs.length = max_num) := by
  unfold get_data
  rw [if_neg (by decide), if_neg (by decide), if_pos rfl]
  by_cases hcase : max_num < (unlabeled_images fs).length
  · obtain ⟨hlen, hnodup, hmem⟩ := hchoice hcase
    rw [if_pos hcase, fancyIndex_eq_map (unlabeled_images fs) choice [] hmem]
    refine ⟨choice.map (fun i => (unlabeled_images fs).getD i []), rfl, ?_, ?_, ?_⟩
    · rw [List.length_map, hlen]
      omega
    · intro hle
      omega
    · intro _
      exact ⟨rfl, hnodup, by rw [List.length_map, hlen]⟩
  · rw [if_neg hcase]
    refine ⟨unlabeled_images fs, rfl, by omega, fun _ => rfl, fun hlt => absurd hlt hcase⟩

theorem get_data_unlabeled_spec_witness :
    get_data "unlabeled" 5 (fun _ => List.replicate 27648 0) [] =
      (some (unlabeled_images (fun _ => List.replicate 27648 0), none),
        [DATADIR ++ "unlabeled_X.bin"]) ∧
    (unlabeled_images (fun _ => List.replicate 27648 0)).length = 1 ∧
    get_data "unlabeled" 0 (fun _ => List.replicate 27648 0) [] =
      (some ([], none), [DATADIR ++ "unlabeled_X.bin"]) := by
  have hn : (unlabeled_images (fun _ => List.replicate 27648 0)).length = 1 := by
    show (extract_images (List.replicate 27648 0)).length = 1
    rw [extract_images_length, List.length_replicate]
  obtain ⟨imgs1, h1, h2, h3, h4⟩ :=
    get_data_unlabeled_spec (fun _ => List.replicate 27648 0) 5 []
      (fun hlt => absurd hlt (by rw [hn]; omega))
  rw [h3 (by rw [hn]; omega)] at h1
  obtain ⟨imgs2, g1, g2, g3, g4⟩ :=
    get_data_unlabeled_spec (fun _ => List.replicate 27648 0) 0 []
      (fun _ => ⟨rfl, List.nodup_nil, fun i hi => absurd hi (List.not_mem_nil i)⟩)
  rw [(g4 (by rw [hn]; omega)).1] at g1
  exact ⟨h1, hn, g1⟩

/-! ## C9: unknown split names -/

/-- C9: for any split name other than `train`, `test` and `unlabeled`,
`get_data` opens no file and falls off the end of the `if/elif` chain,
returning Python's implicit `None` rather than raising or returning a tuple. -/
theorem get_data_unknown_name (name : String) (max_num : Nat) (fs : String → List Nat)
    (choice : List Nat) (h1 : name ≠ "train") (h2 : name ≠ "test")
    (h3 : name ≠ "unlabeled") :
    get_data name max_num fs choice = (none, []) := by
  unfold get_data
  rw [if_neg h1, if_neg h2, if_neg h3]

theorem get_data_unknown_name_witness :
    get_data "validation" 20000 (fun _ => []) [] = (none, []) :=
  get_data_unknown_name "validation" 20000 (fun _ => []) []
    (by decide) (by decide) (by decide)

end Stl10
